import Mathlib

/- Verification of the ARM7 CPU core in src/devices/cpu/arm7/arm7.cpp.
   The development shallowly embeds the data model (CP15 state, MMU/TLB
   walker, CP15 register writes, memory accessors, the ARM946ES TCM
   overlay, the pending-exception flags and the condition-evaluation
   prologue of the execute loop) and proves properties about it. -/

set_option maxRecDepth 8000

namespace Arm7

/- Constants used by arm7.cpp.  The headers arm7.h / arm7core.h are not part
   of the provided sources; the values below are fixed by the specification:
   the CP15 control-register layout (spec lists the flags MMU enable,
   alignment check, data cache, write buffer, endian override, system, rom,
   instruction cache, vector-base adjust, whose architected positions are
   bits 0,1,2,3,7,8,9,12,13), the first-level descriptor kinds
   (0 unmapped, 1 coarse, 2 section, 3 fine), the page masks (section 1MiB,
   large 64KiB, small 4KiB, tiny 1KiB) and the CPSR flag layout
   (N=31, Z=30, C=29, V=28). -/

/-- Modelled from the spec: MMU-enable bit of the CP15 control register
(arm7core.h is missing from src); architected position bit 0. -/
def COPRO_CTRL_MMU_EN : Nat := 0x00000001

/-- Modelled from the spec: System (S) bit of the CP15 control register;
architected position bit 8. -/
def COPRO_CTRL_SYSTEM : Nat := 0x00000100

/-- Modelled from the spec: ROM (R) bit of the CP15 control register;
architected position bit 9. -/
def COPRO_CTRL_ROM : Nat := 0x00000200

/-- Modelled from the spec: mask of the writable CP15 control bits, the union
of the nine flag bits the spec lists (bits 0-3, 7, 8, 9, 12, 13). -/
def COPRO_CTRL_MASK : Nat := 0x0000338F

/-- Modelled from the spec: the translation-table base is 16KiB aligned, so
writes to CP15 register 2 keep the high 18 bits. -/
def COPRO_TLB_BASE_MASK : Nat := 0xFFFFC000

/-- Modelled from the spec: first-level descriptor kind 0 = unmapped. -/
def COPRO_TLB_UNMAPPED : Nat := 0
/-- Modelled from the spec: first-level descriptor kind 1 = coarse table. -/
def COPRO_TLB_COARSE_TABLE : Nat := 1
/-- Modelled from the spec: first-level descriptor kind 2 = section. -/
def COPRO_TLB_SECTION_TABLE : Nat := 2
/-- Modelled from the spec: first-level descriptor kind 3 = fine table. -/
def COPRO_TLB_FINE_TABLE : Nat := 3

/-- Modelled from the spec: section descriptors map 1MiB, physical address =
(desc1 AND 0xFFF00000) OR (vaddr AND 0x000FFFFF). -/
def COPRO_TLB_SECTION_PAGE_MASK : Nat := 0xFFF00000
/-- Modelled from the spec: large pages map 64KiB. -/
def COPRO_TLB_LARGE_PAGE_MASK : Nat := 0xFFFF0000
/-- Modelled from the spec: small pages map 4KiB. -/
def COPRO_TLB_SMALL_PAGE_MASK : Nat := 0xFFFFF000
/-- Modelled from the spec: tiny pages map 1KiB. -/
def COPRO_TLB_TINY_PAGE_MASK : Nat := 0xFFFFFC00

/-- Modelled from the spec: the first-level table index is vaddr >> 20 (the
table holds one 32-bit descriptor per 1MiB of virtual space). -/
def COPRO_TLB_VADDR_FLTI_MASK_SHIFT : Nat := 20

/-- Modelled from the spec: a coarse table descriptor keeps address bits
31..10; the second-level entry offset is ((vaddr AND 0x000FF000) >> 10). -/
def COPRO_TLB_CFLD_ADDR_MASK : Nat := 0xFFFFFC00
/-- Modelled from the spec: coarse second-level index slice of the vaddr. -/
def COPRO_TLB_VADDR_CSLTI_MASK : Nat := 0x000FF000
/-- Modelled from the spec: shift pairing with COPRO_TLB_VADDR_CSLTI_MASK. -/
def COPRO_TLB_VADDR_CSLTI_MASK_SHIFT : Nat := 10

/-- Modelled from the spec: a fine table descriptor keeps address bits
31..12; the second-level entry offset is ((vaddr AND 0x000FFC00) >> 8). -/
def COPRO_TLB_FPTB_ADDR_MASK : Nat := 0xFFFFF000
/-- Modelled from the spec: fine second-level index slice of the vaddr. -/
def COPRO_TLB_VADDR_FSLTI_MASK : Nat := 0x000FFC00
/-- Modelled from the spec: shift pairing with COPRO_TLB_VADDR_FSLTI_MASK. -/
def COPRO_TLB_VADDR_FSLTI_MASK_SHIFT : Nat := 8

/-- Granularity selector passed to the second-level descriptor fetch. -/
def TLB_COARSE : Nat := 0
/-- Granularity selector for fine tables. -/
def TLB_FINE : Nat := 1

/-- The write bit of the TLB access flags.  The bit layout comment above
detect_fault in arm7.cpp fixes it: bit 8 is ARM7_TLB_WRITE. -/
def ARM7_TLB_WRITE : Nat := 0x100
/-- Modelled from the spec: the remaining TLB flag bits are distinct low bits
that detect_fault never reads (only bit 8 is consulted). -/
def ARM7_TLB_READ : Nat := 4
/-- Modelled from the spec: data-abort request flag (value never consulted). -/
def ARM7_TLB_ABORT_D : Nat := 1
/-- Modelled from the spec: prefetch-abort request flag (never consulted). -/
def ARM7_TLB_ABORT_P : Nat := 2

/-- Modelled from the spec: the mode field stored in m_mode is the low 4 bits
of the CPSR mode; User mode (0x10) has low nibble 0. -/
def eARM7_MODE_USER : Nat := 0

/-- Modelled from the spec: CPSR negative flag, bit 31. -/
def N_MASK : Nat := 0x80000000
/-- Modelled from the spec: CPSR zero flag, bit 30. -/
def Z_MASK : Nat := 0x40000000
/-- Modelled from the spec: CPSR carry flag, bit 29. -/
def C_MASK : Nat := 0x20000000
/-- Modelled from the spec: CPSR overflow flag, bit 28. -/
def V_MASK : Nat := 0x10000000

/-- Modelled from the spec: slot index of the CPSR in the flat register
backing store (slots 0-15 are R0..R15, slot 16 the CPSR). -/
def eCPSR : Nat := 16

/-- Modelled from the spec: identifier of the program address space; only
its equality with the memory_translate argument matters. -/
def AS_PROGRAM : Nat := 0

/-- Result of the 5-variable permission function (FAULT_NONE / FAULT_DOMAIN /
FAULT_PERMISSION in arm7.h). -/
inductive Fault where
  | fnone
  | fdomain
  | fpermission
deriving DecidableEq

/-- decode_fault from arm7.cpp (lines 291-355): the reference 5-variable
permission function over (mode, ap, access_control, system, rom, write). -/
def decode_fault (mode ap access_control system rom write : Nat) : Fault :=
  match access_control % 4 with
  | 0 => Fault.fdomain
  | 1 =>
    match ap % 4 with
    | 0 =>
      if system ≠ 0 then
        if rom ≠ 0 then Fault.fpermission
        else if mode = eARM7_MODE_USER ∨ write ≠ 0 then Fault.fpermission
        else Fault.fnone
      else
        if rom ≠ 0 then
          (if write ≠ 0 then Fault.fpermission else Fault.fnone)
        else Fault.fpermission
    | 1 => if mode = eARM7_MODE_USER then Fault.fpermission else Fault.fnone
    | 2 => if mode = eARM7_MODE_USER ∧ write ≠ 0 then Fault.fpermission
           else Fault.fnone
    | _ => Fault.fnone
  | 2 => Fault.fdomain
  | _ => Fault.fnone

/-- The 512-entry fault decision table produced by update_fault_table
(arm7.cpp lines 971-989) for a given CP15 control value.  The population
loop stores decode_fault(mode, ap, access_control, S, R, write) at key
(write << 8) | (access_control << 6) | (ap << 4) | mode; since that key
composition is a bijection onto 0..511, the table is the function below
(the field decomposition inverts the key composition). -/
def fault_table_of_control (control : Nat) : Nat → Fault :=
  fun index =>
    decode_fault (index % 16) (index / 16 % 4) (index / 64 % 4)
      (if control &&& COPRO_CTRL_SYSTEM ≠ 0 then 1 else 0)
      (if control &&& COPRO_CTRL_ROM ≠ 0 then 1 else 0)
      (index / 256 % 2)

/-- Key composition used by the update_fault_table loop and detect_fault. -/
def fault_table_key (write access_control ap mode : Nat) : Nat :=
  (write <<< 8) ||| (access_control <<< 6) ||| (ap <<< 4) ||| mode

/-- The host memory bus (section 6 of the spec): byte / halfword / word reads.
The functions return the raw host values; the uint32/uint16/uint8 return
types of the C++ accessors are modelled by reducing modulo the width at the
call sites. -/
structure Bus where
  read8 : Nat → Nat
  read16 : Nat → Nat
  read32 : Nat → Nat

/-- A dword bus read as typed in C++ (uint32 result). -/
def read_dword32 (bus : Bus) (a : Nat) : Nat := bus.read32 a % 4294967296

/-- A word bus read as typed in C++ (uint16 result). -/
def read_word16 (bus : Bus) (a : Nat) : Nat := bus.read16 a % 65536

/-- A byte bus read as typed in C++ (uint8 result). -/
def read_byte8 (bus : Bus) (a : Nat) : Nat := bus.read8 a % 256

/-- The mutable core state touched by the components under verification:
CP15 registers, the decoded DACR table, the shared fault decision table and
the pending-exception flags (internal_arm_state in arm7core.h, restricted to
the fields the verified functions read or write). -/
structure CoreState where
  control : Nat
  tlbBase : Nat
  tlb_base_mask : Nat
  domainAccessControl : Nat
  decoded_access_control : Nat → Nat
  fault_table : Nat → Fault
  mode : Nat
  pid_offset : Nat
  fcsePID : Nat
  faultStatusD : Nat
  faultStatusP : Nat
  faultAddress : Nat
  pendingIrq : Bool
  pendingFiq : Bool
  pendingAbtD : Bool
  pendingAbtP : Bool
  pendingUnd : Bool
  pendingSwi : Bool
  pending_interrupt : Bool
  mode_changed : Bool

/-- detect_fault (arm7.cpp lines 368-372): fault table lookup at
mode | ap | decoded_access_control[domain] | (flags & ARM7_TLB_WRITE). -/
def detect_fault (s : CoreState) (desc_lvl1 ap flags : Nat) : Fault :=
  s.fault_table
    (s.mode ||| ap ||| s.decoded_access_control ((desc_lvl1 >>> 5) &&& 0xF)
       ||| (flags &&& ARM7_TLB_WRITE))

/-- detect_read_fault (arm7.cpp lines 357-361): like detect_fault but with
the write bit absent from the key. -/
def detect_read_fault (s : CoreState) (desc_lvl1 ap : Nat) : Fault :=
  s.fault_table
    (s.mode ||| ap ||| s.decoded_access_control ((desc_lvl1 >>> 5) &&& 0xF))

/-- arm7_tlb_get_second_level_descriptor (arm7.cpp lines 270-289). -/
def arm7_tlb_get_second_level_descriptor
    (bus : Bus) (granularity first_desc vaddr : Nat) : Nat :=
  let desc_addr :=
    if granularity = TLB_COARSE then
      (first_desc &&& COPRO_TLB_CFLD_ADDR_MASK)
        ||| ((vaddr &&& COPRO_TLB_VADDR_CSLTI_MASK) >>> COPRO_TLB_VADDR_CSLTI_MASK_SHIFT)
    else
      (first_desc &&& COPRO_TLB_FPTB_ADDR_MASK)
        ||| ((vaddr &&& COPRO_TLB_VADDR_FSLTI_MASK) >>> COPRO_TLB_VADDR_FSLTI_MASK_SHIFT)
  read_dword32 bus desc_addr

/-- The FCSE remap step at the top of both TLB walkers (arm7.cpp lines
563-566 and 441-444): addresses below 0x2000000 get the PID offset added. -/
def fcse_remap (pid_offset addr : Nat) : Nat :=
  if addr < 0x2000000 then addr + pid_offset else addr

/-- The first-level descriptor fetch m_tlb_base[addr >> 20]: a dword read at
the cached translation-table base plus four bytes per index. -/
def first_level_descriptor (s : CoreState) (bus : Bus) (addr : Nat) : Nat :=
  read_dword32 bus (s.tlb_base_mask + (addr >>> COPRO_TLB_VADDR_FLTI_MASK_SHIFT) * 4)

/-- Outcome of arm7_tlb_translate: success with the physical address
(return true, addr updated), failure with the mutated state (return false
after writing FSR / FAR / pending flags), or the fatalerror hard stop of the
unimplemented coarse-table domain fault path. -/
inductive TlbOutcome where
  | ok (paddr : Nat)
  | fail (s' : CoreState)
  | fatal (vaddr domain : Nat)

/-- Body of arm7_tlb_translate after the FCSE remap (arm7.cpp lines
568-667), operating on the already-remapped address. -/
def arm7_tlb_translate_core (s : CoreState) (bus : Bus) (addr flags : Nat) :
    TlbOutcome :=
  let desc_lvl1 := first_level_descriptor s bus addr
  let lvl1_type := desc_lvl1 &&& 3
  if lvl1_type = COPRO_TLB_SECTION_TABLE then
    let fault := detect_fault s desc_lvl1 ((desc_lvl1 >>> 6) &&& 0x30) flags
    if fault = Fault.fnone then
      TlbOutcome.ok ((desc_lvl1 &&& COPRO_TLB_SECTION_PAGE_MASK) ||| (addr &&& 0x000FFFFF))
    else
      let domain := (desc_lvl1 >>> 5) &&& 0xF
      TlbOutcome.fail { s with
        faultStatusD := (if fault = Fault.fdomain then 9 else 13) ||| (domain <<< 4),
        faultAddress := addr,
        pendingAbtD := true,
        pending_interrupt := true }
  else if lvl1_type = COPRO_TLB_UNMAPPED then
    TlbOutcome.fail { s with
      faultStatusD := 5,
      faultAddress := addr,
      pendingAbtD := true,
      pending_interrupt := true }
  else
    let permission := (s.domainAccessControl >>> ((desc_lvl1 >>> 4) &&& 0x1e)) &&& 3
    let desc_lvl2 := arm7_tlb_get_second_level_descriptor bus
      (if desc_lvl1 &&& 3 = COPRO_TLB_COARSE_TABLE then TLB_COARSE else TLB_FINE)
      desc_lvl1 addr
    if permission ≠ 1 ∧ permission ≠ 3 then
      TlbOutcome.fatal addr ((desc_lvl1 >>> 5) &&& 0xF)
    else
      match desc_lvl2 &&& 3 with
      | 0 =>
        let domain := (desc_lvl1 >>> 5) &&& 0xF
        TlbOutcome.fail { s with
          faultStatusD := 7 ||| (domain <<< 4),
          faultAddress := addr,
          pendingAbtD := true,
          pending_interrupt := true }
      | 1 =>
        TlbOutcome.ok ((desc_lvl2 &&& COPRO_TLB_LARGE_PAGE_MASK) ||| (addr &&& 0x0000FFFF))
      | 2 =>
        let ap := ((((desc_lvl2 >>> 4) &&& 0xFF) >>> (((addr >>> 10) &&& 3) <<< 1)) &&& 3) <<< 4
        let fault := detect_fault s desc_lvl1 ap flags
        if fault = Fault.fnone then
          TlbOutcome.ok ((desc_lvl2 &&& COPRO_TLB_SMALL_PAGE_MASK) ||| (addr &&& 0x00000FFF))
        else
          let domain := (desc_lvl1 >>> 5) &&& 0xF
          TlbOutcome.fail { s with
            faultStatusD := (if fault = Fault.fdomain then 11 else 15) ||| (domain <<< 4),
            faultAddress := addr,
            pendingAbtD := true,
            pending_interrupt := true }
      | _ =>
        TlbOutcome.ok ((desc_lvl2 &&& COPRO_TLB_TINY_PAGE_MASK) ||| (addr &&& 0x000003FF))

/-- arm7_tlb_translate (arm7.cpp lines 561-667): FCSE remap followed by the
two-level walk. -/
def arm7_tlb_translate (s : CoreState) (bus : Bus) (addr flags : Nat) :
    TlbOutcome :=
  arm7_tlb_translate_core s bus (fcse_remap s.pid_offset addr) flags

/-- Outcome of arm7_tlb_translate_check: success with the physical address,
plain failure (no state side effects), or the same fatalerror stop. -/
inductive TlbCheckOutcome where
  | ok (paddr : Nat)
  | fail
  | fatal (vaddr domain : Nat)

/-- Body of arm7_tlb_translate_check after the FCSE remap (arm7.cpp lines
446-502). -/
def arm7_tlb_translate_check_core (s : CoreState) (bus : Bus) (addr : Nat) :
    TlbCheckOutcome :=
  let desc_lvl1 := first_level_descriptor s bus addr
  let lvl1_type := desc_lvl1 &&& 3
  if lvl1_type = COPRO_TLB_SECTION_TABLE then
    if detect_read_fault s desc_lvl1 ((desc_lvl1 >>> 6) &&& 0x30) = Fault.fnone then
      TlbCheckOutcome.ok ((desc_lvl1 &&& COPRO_TLB_SECTION_PAGE_MASK) ||| (addr &&& 0x000FFFFF))
    else
      TlbCheckOutcome.fail
  else if lvl1_type = COPRO_TLB_UNMAPPED then
    TlbCheckOutcome.fail
  else
    let permission := (s.domainAccessControl >>> ((desc_lvl1 >>> 4) &&& 0x1e)) &&& 3
    let desc_lvl2 := arm7_tlb_get_second_level_descriptor bus
      (if desc_lvl1 &&& 3 = COPRO_TLB_COARSE_TABLE then TLB_COARSE else TLB_FINE)
      desc_lvl1 addr
    if permission ≠ 1 ∧ permission ≠ 3 then
      TlbCheckOutcome.fatal addr ((desc_lvl1 >>> 5) &&& 0xF)
    else
      match desc_lvl2 &&& 3 with
      | 0 => TlbCheckOutcome.fail
      | 1 =>
        TlbCheckOutcome.ok ((desc_lvl2 &&& COPRO_TLB_LARGE_PAGE_MASK) ||| (addr &&& 0x0000FFFF))
      | 2 =>
        let ap := ((((desc_lvl2 >>> 4) &&& 0xFF) >>> (((addr >>> 10) &&& 3) <<< 1)) &&& 3) <<< 4
        if detect_read_fault s desc_lvl1 ap = Fault.fnone then
          TlbCheckOutcome.ok ((desc_lvl2 &&& COPRO_TLB_SMALL_PAGE_MASK) ||| (addr &&& 0x00000FFF))
        else
          TlbCheckOutcome.fail
      | _ =>
        TlbCheckOutcome.ok ((desc_lvl2 &&& COPRO_TLB_TINY_PAGE_MASK) ||| (addr &&& 0x000003FF))

/-- arm7_tlb_translate_check (arm7.cpp lines 439-559). -/
def arm7_tlb_translate_check (s : CoreState) (bus : Bus) (addr : Nat) :
    TlbCheckOutcome :=
  arm7_tlb_translate_check_core s bus (fcse_remap s.pid_offset addr)

/-- memory_translate (arm7.cpp lines 774-782): translation applies only to
the program space and only when the MMU is enabled; otherwise the address is
returned unchanged with success. -/
def memory_translate (s : CoreState) (bus : Bus) (spacenum addr : Nat) :
    TlbOutcome :=
  if spacenum = AS_PROGRAM ∧ s.control &&& COPRO_CTRL_MMU_EN ≠ 0 then
    arm7_tlb_translate s bus addr 0
  else
    TlbOutcome.ok addr

/-- Result of a CPU read accessor: the state after the access, the value
returned, and the physical bus address consulted (Option.none when the
access never reached the bus), or the translator hard stop. -/
inductive MemReadResult where
  | ok (s' : CoreState) (value : Nat) (busAddr : Option Nat)
  | fatal (vaddr domain : Nat)

/-- Result of a CPU write accessor: a single bus write at the given physical
address (state unchanged), an aborted access (no bus activity, state mutated
by the translator), or the translator hard stop. -/
inductive MemWriteResult where
  | bus (addr data : Nat)
  | aborted (s' : CoreState)
  | fatal (vaddr domain : Nat)

/-- arm7_cpu_write32 (arm7.cpp lines 2506-2518). -/
def arm7_cpu_write32 (s : CoreState) (bus : Bus) (addr data : Nat) :
    MemWriteResult :=
  if s.control &&& COPRO_CTRL_MMU_EN ≠ 0 then
    match arm7_tlb_translate s bus addr (ARM7_TLB_ABORT_D ||| ARM7_TLB_WRITE) with
    | TlbOutcome.fail s' => MemWriteResult.aborted s'
    | TlbOutcome.fatal v d => MemWriteResult.fatal v d
    | TlbOutcome.ok paddr => MemWriteResult.bus (paddr &&& 0xFFFFFFFC) data
  else
    MemWriteResult.bus (addr &&& 0xFFFFFFFC) data

/-- arm7_cpu_write16 (arm7.cpp lines 2521-2533). -/
def arm7_cpu_write16 (s : CoreState) (bus : Bus) (addr data : Nat) :
    MemWriteResult :=
  if s.control &&& COPRO_CTRL_MMU_EN ≠ 0 then
    match arm7_tlb_translate s bus addr (ARM7_TLB_ABORT_D ||| ARM7_TLB_WRITE) with
    | TlbOutcome.fail s' => MemWriteResult.aborted s'
    | TlbOutcome.fatal v d => MemWriteResult.fatal v d
    | TlbOutcome.ok paddr => MemWriteResult.bus (paddr &&& 0xFFFFFFFE) data
  else
    MemWriteResult.bus (addr &&& 0xFFFFFFFE) data

/-- arm7_cpu_write8 (arm7.cpp lines 2535-2546). -/
def arm7_cpu_write8 (s : CoreState) (bus : Bus) (addr data : Nat) :
    MemWriteResult :=
  if s.control &&& COPRO_CTRL_MMU_EN ≠ 0 then
    match arm7_tlb_translate s bus addr (ARM7_TLB_ABORT_D ||| ARM7_TLB_WRITE) with
    | TlbOutcome.fail s' => MemWriteResult.aborted s'
    | TlbOutcome.fatal v d => MemWriteResult.fatal v d
    | TlbOutcome.ok paddr => MemWriteResult.bus paddr data
  else
    MemWriteResult.bus addr data

/-- The unaligned-load rotation of arm7_cpu_read32 exactly as written in the
source: (result >> (8 * (addr & 3))) | (result << (32 - (8 * (addr & 3)))),
truncated to 32 bits by the uint32 store. -/
def read32_rotate (result sh : Nat) : Nat :=
  ((result >>> sh) ||| (result <<< (32 - sh))) % 4294967296

/-- The data path of arm7_cpu_read32 after (optional) translation (arm7.cpp
lines 2560-2570): the unaligned-word rotation over the bus word. -/
def arm7_cpu_read32_access (s : CoreState) (bus : Bus) (addr : Nat) :
    MemReadResult :=
  if addr &&& 3 ≠ 0 then
    MemReadResult.ok s
      (read32_rotate (read_dword32 bus (addr &&& 0xFFFFFFFC)) (8 * (addr &&& 3)))
      (some (addr &&& 0xFFFFFFFC))
  else
    MemReadResult.ok s (read_dword32 bus addr) (some addr)

/-- arm7_cpu_read32 (arm7.cpp lines 2548-2571).  On a translation fault the
function returns 0 without any bus access. -/
def arm7_cpu_read32 (s : CoreState) (bus : Bus) (addr : Nat) : MemReadResult :=
  if s.control &&& COPRO_CTRL_MMU_EN ≠ 0 then
    match arm7_tlb_translate s bus addr (ARM7_TLB_ABORT_D ||| ARM7_TLB_READ) with
    | TlbOutcome.fail s' => MemReadResult.ok s' 0 Option.none
    | TlbOutcome.fatal v d => MemReadResult.fatal v d
    | TlbOutcome.ok paddr => arm7_cpu_read32_access s bus paddr
  else
    arm7_cpu_read32_access s bus addr

/-- arm7_cpu_read16 (arm7.cpp lines 2573-2593). -/
def arm7_cpu_read16 (s : CoreState) (bus : Bus) (addr : Nat) : MemReadResult :=
  let go : CoreState → Nat → MemReadResult := fun s addr =>
    let result := read_word16 bus (addr &&& 0xFFFFFFFE)
    if addr &&& 1 ≠ 0 then
      MemReadResult.ok s (((result >>> 8) &&& 0xFF) ||| ((result &&& 0xFF) <<< 24))
        (some (addr &&& 0xFFFFFFFE))
    else
      MemReadResult.ok s result (some (addr &&& 0xFFFFFFFE))
  if s.control &&& COPRO_CTRL_MMU_EN ≠ 0 then
    match arm7_tlb_translate s bus addr (ARM7_TLB_ABORT_D ||| ARM7_TLB_READ) with
    | TlbOutcome.fail s' => MemReadResult.ok s' 0 Option.none
    | TlbOutcome.fatal v d => MemReadResult.fatal v d
    | TlbOutcome.ok paddr => go s paddr
  else
    go s addr

/-- arm7_cpu_read8 (arm7.cpp lines 2595-2606). -/
def arm7_cpu_read8 (s : CoreState) (bus : Bus) (addr : Nat) : MemReadResult :=
  if s.control &&& COPRO_CTRL_MMU_EN ≠ 0 then
    match arm7_tlb_translate s bus addr (ARM7_TLB_ABORT_D ||| ARM7_TLB_READ) with
    | TlbOutcome.fail s' => MemReadResult.ok s' 0 Option.none
    | TlbOutcome.fatal v d => MemReadResult.fatal v d
    | TlbOutcome.ok paddr => MemReadResult.ok s (read_byte8 bus paddr) (some paddr)
  else
    MemReadResult.ok s (read_byte8 bus addr) (some addr)

/-- arm7_rt_w_callback (arm7.cpp lines 2093-2195) for CP15 accesses, with the
coprocessor operand fields already decoded (the INSN_COPRO field extraction
lives in the missing arm7core.h).  Register 1 updates the control word and
the mode-change latch but does not touch the fault decision table; register
3 rebuilds the decoded per-domain access-control bytes; register 13 stores
the FCSE PID and recomputes the PID offset. -/
def arm7_rt_w_callback (s : CoreState) (cReg _op2 op3 data : Nat) : CoreState :=
  if cReg = 1 then
    let newControl := data &&& COPRO_CTRL_MASK
    { s with
      control := newControl,
      mode_changed :=
        if newControl &&& COPRO_CTRL_MMU_EN ≠ s.control &&& COPRO_CTRL_MMU_EN then
          true
        else s.mode_changed }
  else if cReg = 2 then
    { s with tlbBase := data, tlb_base_mask := data &&& COPRO_TLB_BASE_MASK }
  else if cReg = 3 then
    { s with
      domainAccessControl := data,
      decoded_access_control := fun i => ((data >>> (2 * i)) &&& 3) <<< 6 }
  else if cReg = 5 then
    if op3 = 0 then { s with faultStatusD := data }
    else if op3 = 1 then { s with faultStatusP := data }
    else s
  else if cReg = 6 then
    { s with faultAddress := data }
  else if cReg = 13 then
    { s with
      fcsePID := data,
      pid_offset := ((data >>> 25) &&& 0x7F) * 0x2000000 }
  else
    s

/-- update_fault_table (arm7.cpp lines 971-989) as a state operation:
repopulate the shared fault decision table from the current control word. -/
def update_fault_table (s : CoreState) : CoreState :=
  { s with fault_table := fault_table_of_control s.control }

/-- The interrupt lines accepted by execute_set_input (arm7.cpp lines
1929-1955); the numeric ARM7_*_LINE values live in the missing header, only
their distinctness matters. -/
inductive IrqLine where
  | irq
  | firq
  | abort_exception
  | abort_prefetch_exception
  | undefine_exception

/-- Modelled from the spec: update_irq_state is declared in the missing
arm7core.h; per spec section 3 invariant 6 and section 4.7 step 7 it
recomputes the aggregate pending flag as the disjunction of the six
individual pending flags. -/
def update_irq_state (s : CoreState) : CoreState :=
  { s with
    pending_interrupt :=
      s.pendingIrq || s.pendingFiq || s.pendingAbtD || s.pendingAbtP
        || s.pendingUnd || s.pendingSwi }

/-- execute_set_input (arm7.cpp lines 1929-1955): latch the line state into
the matching pending flag, then update_irq_state. -/
def execute_set_input (s : CoreState) (line : IrqLine) (state : Nat) :
    CoreState :=
  update_irq_state
    (match line with
     | IrqLine.irq => { s with pendingIrq := state ≠ 0 }
     | IrqLine.firq => { s with pendingFiq := state ≠ 0 }
     | IrqLine.abort_exception => { s with pendingAbtD := state ≠ 0 }
     | IrqLine.abort_prefetch_exception => { s with pendingAbtP := state ≠ 0 }
     | IrqLine.undefine_exception => { s with pendingUnd := state ≠ 0 })

/-- The six exception kinds of the exception engine. -/
inductive ExcKind where
  | irq
  | fiq
  | abtD
  | abtP
  | und
  | swi

/-- Modelled from the spec: the pending-flag bookkeeping of exception
servicing (arm7_check_irq_state lives in arm7core.hxx, which is not under
src); spec section 4.7 step 7: clear the serviced pending flag and recompute
the aggregate. -/
def service_pending_clear (s : CoreState) (e : ExcKind) : CoreState :=
  update_irq_state
    (match e with
     | ExcKind.irq => { s with pendingIrq := false }
     | ExcKind.fiq => { s with pendingFiq := false }
     | ExcKind.abtD => { s with pendingAbtD := false }
     | ExcKind.abtP => { s with pendingAbtP := false }
     | ExcKind.und => { s with pendingUnd := false }
     | ExcKind.swi => { s with pendingSwi := false })

/-- Invariant 6 of the spec data model: the aggregate pending flag equals the
disjunction of the six individual pending flags. -/
def pending_invariant (s : CoreState) : Prop :=
  s.pending_interrupt =
    (s.pendingIrq || s.pendingFiq || s.pendingAbtD || s.pendingAbtP
      || s.pendingUnd || s.pendingSwi)

/-- The ARM946ES state added on top of the core: CP15 control copy, the TCM
window registers and bounds, and the two TCM backing stores.  The backing
arrays are modelled at word granularity: the map carries the 32-bit value
stored at each byte offset (the verified accessors only use offsets already
masked to word alignment). -/
structure Arm946State where
  cp15_control : Nat
  cp15_itcm_base : Nat
  cp15_dtcm_base : Nat
  cp15_itcm_size : Nat
  cp15_dtcm_size : Nat
  cp15_itcm_end : Nat
  cp15_dtcm_end : Nat
  cp15_itcm_reg : Nat
  cp15_dtcm_reg : Nat
  ITCM : Nat → Nat
  DTCM : Nat → Nat

/-- RefreshDTCM (arm7.cpp lines 2305-2319); all stores are uint32. -/
def RefreshDTCM (s : Arm946State) : Arm946State :=
  if s.cp15_control &&& (1 <<< 16) ≠ 0 then
    let base := s.cp15_dtcm_reg &&& 0xFFFFF000
    let size := (512 <<< ((s.cp15_dtcm_reg &&& 0x3f) >>> 1)) % 4294967296
    { s with
      cp15_dtcm_base := base,
      cp15_dtcm_size := size,
      cp15_dtcm_end := (base + size) % 4294967296 }
  else
    { s with cp15_dtcm_base := 0xFFFFFFFF, cp15_dtcm_size := 0, cp15_dtcm_end := 0 }

/-- RefreshITCM (arm7.cpp lines 2321-2335); the base is hard-wired to 0. -/
def RefreshITCM (s : Arm946State) : Arm946State :=
  if s.cp15_control &&& (1 <<< 18) ≠ 0 then
    let size := (512 <<< ((s.cp15_itcm_reg &&& 0x3f) >>> 1)) % 4294967296
    { s with
      cp15_itcm_base := 0,
      cp15_itcm_size := size,
      cp15_itcm_end := (0 + size) % 4294967296 }
  else
    { s with cp15_itcm_base := 0xFFFFFFFF, cp15_itcm_size := 0, cp15_itcm_end := 0 }

/-- arm946es_cpu_device::arm7_rt_w_callback (arm7.cpp lines 2251-2303),
restricted to the TCM-relevant registers 1 and 9. -/
def arm946es_rt_w_callback (s : Arm946State) (cReg op2 op3 data : Nat) :
    Arm946State :=
  if cReg = 1 then
    RefreshITCM (RefreshDTCM { s with cp15_control := data })
  else if cReg = 9 then
    if op3 = 1 then
      if op2 = 0 then RefreshDTCM { s with cp15_dtcm_reg := data }
      else if op2 = 1 then RefreshITCM { s with cp15_itcm_reg := data }
      else s
    else s
  else
    s

/-- Effect of an ARM946ES write accessor: a TCM-array store (no bus
activity) or a single bus write. -/
inductive TcmWriteEffect where
  | tcm (s' : Arm946State)
  | bus (addr data : Nat)

/-- arm946es_cpu_device::arm7_cpu_write32 (arm7.cpp lines 2337-2355). -/
def arm946es_cpu_write32 (s : Arm946State) (addr0 data : Nat) : TcmWriteEffect :=
  let addr := addr0 &&& 0xFFFFFFFC
  if s.cp15_itcm_base ≤ addr ∧ addr ≤ s.cp15_itcm_end then
    TcmWriteEffect.tcm
      { s with ITCM := fun i => if i = (addr &&& 0x7fff) then data else s.ITCM i }
  else if s.cp15_dtcm_base ≤ addr ∧ addr ≤ s.cp15_dtcm_end then
    TcmWriteEffect.tcm
      { s with DTCM := fun i => if i = (addr &&& 0x3fff) then data else s.DTCM i }
  else
    TcmWriteEffect.bus addr data

/-- arm946es_cpu_device::arm7_cpu_read32 (arm7.cpp lines 2393-2438): value
read together with the bus address consulted (Option.none when the access
was satisfied from a TCM window). -/
def arm946es_cpu_read32 (s : Arm946State) (bus : Bus) (addr : Nat) :
    Nat × Option Nat :=
  if s.cp15_itcm_base ≤ addr ∧ addr ≤ s.cp15_itcm_end then
    if addr &&& 3 ≠ 0 then
      (read32_rotate (s.ITCM ((addr &&& 0xFFFFFFFC) &&& 0x7fff) % 4294967296)
        (8 * (addr &&& 3)), Option.none)
    else
      (s.ITCM (addr &&& 0x7fff) % 4294967296, Option.none)
  else if s.cp15_dtcm_base ≤ addr ∧ addr ≤ s.cp15_dtcm_end then
    if addr &&& 3 ≠ 0 then
      (read32_rotate (s.DTCM ((addr &&& 0xFFFFFFFC) &&& 0x3fff) % 4294967296)
        (8 * (addr &&& 3)), Option.none)
    else
      (s.DTCM (addr &&& 0x3fff) % 4294967296, Option.none)
  else
    if addr &&& 3 ≠ 0 then
      (read32_rotate (read_dword32 bus (addr &&& 0xFFFFFFFC)) (8 * (addr &&& 3)),
        some (addr &&& 0xFFFFFFFC))
    else
      (read_dword32 bus addr, some addr)

/-- The loop-visible machine state for the condition-evaluation prologue of
execute_core: the flat register file (slot 15 the PC, slot 16 the CPSR), the
cycle counter, the pending flags and the data memory. -/
structure LoopState where
  r : Nat → Nat
  icount : Int
  pendingIrq : Bool
  pendingFiq : Bool
  pendingAbtD : Bool
  pendingAbtP : Bool
  pendingUnd : Bool
  pendingSwi : Bool
  pending_interrupt : Bool
  mem : Nat → Nat

/-- The UNEXECUTED macro (arm7.cpp lines 1070-1074): advance R15 by 4 and
add 2 to the cycle counter. -/
def UNEXECUTED (s : LoopState) : LoopState :=
  { s with
    r := fun i => if i = 15 then (s.r 15 + 4) % 4294967296 else s.r i,
    icount := s.icount + 2 }

/-- True when the switch in execute_core (arm7.cpp lines 1300-1385) takes
the UNEXECUTED branch for a flag-testing condition code (0..13), i.e. the
condition evaluates false against the CPSR. -/
def condFalse (cpsr cond : Nat) : Bool :=
  match cond with
  | 0 => cpsr &&& Z_MASK == 0
  | 1 => !(cpsr &&& Z_MASK == 0)
  | 2 => cpsr &&& C_MASK == 0
  | 3 => !(cpsr &&& C_MASK == 0)
  | 4 => cpsr &&& N_MASK == 0
  | 5 => !(cpsr &&& N_MASK == 0)
  | 6 => cpsr &&& V_MASK == 0
  | 7 => !(cpsr &&& V_MASK == 0)
  | 8 => (cpsr &&& C_MASK == 0) || !(cpsr &&& Z_MASK == 0)
  | 9 => !((cpsr &&& C_MASK == 0) || !(cpsr &&& Z_MASK == 0))
  | 10 => !(((cpsr &&& N_MASK) >>> 3) ^^^ (cpsr &&& V_MASK) == 0)
  | 11 => ((cpsr &&& N_MASK) >>> 3) ^^^ (cpsr &&& V_MASK) == 0
  | 12 => !(cpsr &&& Z_MASK == 0)
          || !(((cpsr &&& N_MASK) >>> 3) ^^^ (cpsr &&& V_MASK) == 0)
  | 13 => !(!(cpsr &&& Z_MASK == 0)
          || !(((cpsr &&& N_MASK) >>> 3) ^^^ (cpsr &&& V_MASK) == 0))
  | _ => false

/-- The condition-evaluation prologue of execute_core for an ARM instruction
(arm7.cpp lines 1296-1398): some s' when the instruction is squashed (the
UNEXECUTED path followed by the jump to skip_arm_exec), Option.none when
execution falls through to the opcode dispatch (condition true, or the NV
extension space on an arch-revision-5 core). -/
def arm_cond_prologue (archRev : Nat) (s : LoopState) (insn : Nat) :
    Option LoopState :=
  let cond := insn >>> 28
  if cond = 14 then Option.none
  else if cond = 15 then
    (if archRev < 5 then some (UNEXECUTED s) else Option.none)
  else if condFalse (s.r eCPSR) cond then some (UNEXECUTED s)
  else Option.none

/-- Rotate a 32-bit value right by n bits (the specification-side rotation
used to state the unaligned-load law). -/
def ror32 (v n : Nat) : Nat :=
  if n % 32 = 0 then v % 4294967296
  else ((v >>> (n % 32)) ||| (v <<< (32 - n % 32))) % 4294967296

/-- Concrete core state shared by the witnesses: MMU enabled, supervisor
mode, all tables and registers cleared, fault table as populated at device
start (control = 0). -/
def sample_state : CoreState :=
  { control := 1
    tlbBase := 0
    tlb_base_mask := 0
    domainAccessControl := 0
    decoded_access_control := fun _ => 0
    fault_table := fault_table_of_control 0
    mode := 3
    pid_offset := 0
    fcsePID := 0
    faultStatusD := 0
    faultStatusP := 0
    faultAddress := 0
    pendingIrq := false
    pendingFiq := false
    pendingAbtD := false
    pendingAbtP := false
    pendingUnd := false
    pendingSwi := false
    pending_interrupt := false
    mode_changed := false }

/-- sample_state with the MMU disabled. -/
def sample_state_off : CoreState := { sample_state with control := 0 }

/-- A bus that returns zero everywhere: every first-level descriptor is
unmapped. -/
def zero_bus : Bus :=
  { read8 := fun _ => 0, read16 := fun _ => 0, read32 := fun _ => 0 }

/-- The state the TLB walker produces when it faults on virtual address 0
with the zero bus starting from sample_state. -/
def sample_fail : CoreState :=
  { sample_state with
    faultStatusD := 5
    faultAddress := 0
    pendingAbtD := true
    pending_interrupt := true }

theorem nat_and_three (a : Nat) : a &&& 3 = a % 4 := by
  have h := Nat.and_pow_two_sub_one_eq_mod a 2
  norm_num at h
  exact h

theorem nat_and_one (a : Nat) : a &&& 1 = a % 2 := Nat.and_one_is_mod a

theorem nat_and_mask_high (k a : Nat) (hk : k ≤ 32) (ha : a < 2 ^ 32) :
    a &&& (2 ^ 32 - 2 ^ k) = 2 ^ k * (a / 2 ^ k) := by
  have hmask : 2 ^ 32 - 2 ^ k = 2 ^ k * (2 ^ (32 - k) - 1) := by
    have hp : (2 : Nat) ^ k * 2 ^ (32 - k) = 2 ^ 32 := by
      rw [← pow_add]
      congr 1
      omega
    rw [Nat.mul_sub_left_distrib, hp, Nat.mul_one]
  rw [hmask]
  apply Nat.eq_of_testBit_eq
  intro i
  rw [Nat.testBit_and, Nat.testBit_mul_pow_two, Nat.testBit_mul_pow_two]
  by_cases hik : k ≤ i
  · have hd : decide (i ≥ k) = true := by simpa using hik
    rw [hd]
    simp only [Bool.true_and]
    rw [Nat.testBit_two_pow_sub_one]
    have hdiv : (a / 2 ^ k).testBit (i - k) = a.testBit i := by
      rw [← Nat.shiftRight_eq_div_pow, Nat.testBit_shiftRight]
      congr 1
      omega
    rw [hdiv]
    by_cases hi32 : i < 32
    · have : decide (i - k < 32 - k) = true := by
        simp only [decide_eq_true_eq]
        omega
      rw [this]
      simp [Bool.and_comm]
    · have hbit : a.testBit i = false := by
        apply Nat.testBit_lt_two_pow
        calc a < 2 ^ 32 := ha
          _ ≤ 2 ^ i := Nat.pow_le_pow_right (by norm_num) (by omega)
      have : decide (i - k < 32 - k) = false := by
        simp only [decide_eq_false_iff_not]
        omega
      rw [this, hbit]
      simp
  · have hd : decide (i ≥ k) = false := by simpa using hik
    rw [hd]
    simp

theorem nat_and_word_mask (a : Nat) (ha : a < 4294967296) :
    a &&& 4294967292 = 4 * (a / 4) := by
  have h := nat_and_mask_high 2 a (by norm_num) (by norm_num; omega)
  norm_num at h
  exact h

theorem nat_and_half_mask (a : Nat) (ha : a < 4294967296) :
    a &&& 4294967294 = 2 * (a / 2) := by
  have h := nat_and_mask_high 1 a (by norm_num) (by norm_num; omega)
  norm_num at h
  exact h

theorem fault_table_of_control_key (control write access_control ap mode : Nat)
    (hw : write < 2) (hac : access_control < 4) (hap : ap < 4) (hm : mode < 16) :
    fault_table_of_control control (fault_table_key write access_control ap mode)
      = decode_fault mode ap access_control
          (if control &&& COPRO_CTRL_SYSTEM ≠ 0 then 1 else 0)
          (if control &&& COPRO_CTRL_ROM ≠ 0 then 1 else 0)
          write := by
  have hkey : fault_table_key write access_control ap mode
      = write * 256 + access_control * 64 + ap * 16 + mode := by
    unfold fault_table_key
    have h1 : write <<< 8 = 2 ^ 8 * write := by
      rw [Nat.shiftLeft_eq, Nat.mul_comm]
    have h2 : access_control <<< 6 = 2 ^ 6 * access_control := by
      rw [Nat.shiftLeft_eq, Nat.mul_comm]
    have h3 : ap <<< 4 = 2 ^ 4 * ap := by
      rw [Nat.shiftLeft_eq, Nat.mul_comm]
    rw [h1, h2, h3, Nat.or_assoc, Nat.or_assoc]
    have o1 : 2 ^ 4 * ap ||| mode = 2 ^ 4 * ap + mode :=
      (Nat.mul_add_lt_is_or (by norm_num; omega) ap).symm
    rw [o1]
    have o2 : 2 ^ 6 * access_control ||| (2 ^ 4 * ap + mode)
        = 2 ^ 6 * access_control + (2 ^ 4 * ap + mode) :=
      (Nat.mul_add_lt_is_or (by norm_num; omega) access_control).symm
    rw [o2]
    have o3 : 2 ^ 8 * write ||| (2 ^ 6 * access_control + (2 ^ 4 * ap + mode))
        = 2 ^ 8 * write + (2 ^ 6 * access_control + (2 ^ 4 * ap + mode)) :=
      (Nat.mul_add_lt_is_or (by norm_num; omega) write).symm
    rw [o3]
    norm_num
    omega
  rw [hkey]
  unfold fault_table_of_control
  have e1 : (write * 256 + access_control * 64 + ap * 16 + mode) % 16 = mode := by omega
  have e2 : (write * 256 + access_control * 64 + ap * 16 + mode) / 16 % 4 = ap := by omega
  have e3 : (write * 256 + access_control * 64 + ap * 16 + mode) / 64 % 4 = access_control := by
    omega
  have e4 : (write * 256 + access_control * 64 + ap * 16 + mode) / 256 % 2 = write := by omega
  rw [e1, e2, e3, e4]

theorem arm7_tlb_translate_fail_frame (s : CoreState) (bus : Bus)
    (a f : Nat) (s' : CoreState)
    (h : arm7_tlb_translate s bus a f = TlbOutcome.fail s') :
    s' = { s with
           faultStatusD := s'.faultStatusD
           faultAddress := s'.faultAddress
           pendingAbtD := true
           pending_interrupt := true } := by
  simp only [arm7_tlb_translate, arm7_tlb_translate_core] at h
  repeat' split at h
  all_goals
    first
    | exact TlbOutcome.noConfusion h
    | (rw [TlbOutcome.fail.injEq] at h
       subst h
       rfl)

/-- C4: writing value v to CP15 register 13 via arm7_rt_w_callback stores v
as the FCSE PID and sets the PID offset to ((v >> 25) AND 0x7F) * 0x02000000;
both arm7_tlb_translate and arm7_tlb_translate_check run on the FCSE-remapped
address, which adds the offset exactly when the virtual address is below
0x02000000; and a written PID field of 0 makes the translation-input address
equal the virtual address for all addresses. -/
theorem claim_C4_fcse_pid (s : CoreState) (bus : Bus)
    (op2 op3 data a flags : Nat) :
    ((arm7_rt_w_callback s 13 op2 op3 data).fcsePID = data ∧
      (arm7_rt_w_callback s 13 op2 op3 data).pid_offset
        = ((data >>> 25) &&& 0x7F) * 0x2000000) ∧
    (arm7_tlb_translate s bus a flags
      = arm7_tlb_translate_core s bus (fcse_remap s.pid_offset a) flags) ∧
    (arm7_tlb_translate_check s bus a
      = arm7_tlb_translate_check_core s bus (fcse_remap s.pid_offset a)) ∧
    (a < 0x2000000 → fcse_remap s.pid_offset a = a + s.pid_offset) ∧
    (¬ a < 0x2000000 → fcse_remap s.pid_offset a = a) ∧
    ((data >>> 25) &&& 0x7F = 0 →
      fcse_remap (arm7_rt_w_callback s 13 op2 op3 data).pid_offset a = a) := by
  refine ⟨⟨rfl, rfl⟩, rfl, rfl, ?_, ?_, ?_⟩
  · intro hlt
    unfold fcse_remap
    rw [if_pos hlt]
  · intro hge
    unfold fcse_remap
    rw [if_neg hge]
  · intro h0
    have hoff : (arm7_rt_w_callback s 13 op2 op3 data).pid_offset = 0 := by
      show ((data >>> 25) &&& 0x7F) * 0x2000000 = 0
      rw [h0]
    rw [hoff]
    unfold fcse_remap
    split <;> omega

theorem claim_C4_witness :
    (arm7_rt_w_callback sample_state 13 0 0 0).fcsePID = 0 ∧
      (0 : Nat) < 0x2000000 ∧
      fcse_remap (arm7_rt_w_callback sample_state 13 0 0 0).pid_offset 7 = 7 := by
  have h := claim_C4_fcse_pid sample_state zero_bus 0 0 0 7 0
  exact ⟨h.1.1, by norm_num, h.2.2.2.2.2 (by decide)⟩

/-- The bus address consulted by a CPU read accessor. -/
def MemReadResult.busAddr : MemReadResult → Option Nat
  | MemReadResult.ok _ _ b => b
  | MemReadResult.fatal _ _ => Option.none

/-- C6: with the MMU-enable bit of the CP15 control register clear,
memory_translate succeeds and leaves every address unchanged, and the data
write and read paths access the bus at the untranslated (alignment-masked)
address. -/
theorem claim_C6_mmu_off_identity (s : CoreState) (bus : Bus)
    (spacenum a d : Nat)
    (hmmu : s.control &&& COPRO_CTRL_MMU_EN = 0) :
    memory_translate s bus spacenum a = TlbOutcome.ok a ∧
    arm7_cpu_write32 s bus a d = MemWriteResult.bus (a &&& 0xFFFFFFFC) d ∧
    arm7_cpu_write16 s bus a d = MemWriteResult.bus (a &&& 0xFFFFFFFE) d ∧
    arm7_cpu_write8 s bus a d = MemWriteResult.bus a d ∧
    (arm7_cpu_read32 s bus a).busAddr
      = some (if a &&& 3 = 0 then a else a &&& 0xFFFFFFFC) ∧
    (arm7_cpu_read16 s bus a).busAddr = some (a &&& 0xFFFFFFFE) ∧
    (arm7_cpu_read8 s bus a).busAddr = some a := by
  refine ⟨?_, ?_, ?_, ?_, ?_, ?_, ?_⟩
  · simp [memory_translate, hmmu]
  · simp [arm7_cpu_write32, hmmu]
  · simp [arm7_cpu_write16, hmmu]
  · simp [arm7_cpu_write8, hmmu]
  · by_cases h3 : a &&& 3 = 0
    · simp [arm7_cpu_read32, arm7_cpu_read32_access, hmmu, h3,
        MemReadResult.busAddr]
    · simp [arm7_cpu_read32, arm7_cpu_read32_access, hmmu, h3,
        MemReadResult.busAddr]
  · have hne : ¬ (s.control &&& COPRO_CTRL_MMU_EN ≠ 0) := by simp [hmmu]
    simp only [arm7_cpu_read16]
    rw [if_neg hne]
    split <;> rfl
  · simp [arm7_cpu_read8, hmmu, MemReadResult.busAddr]

theorem claim_C6_witness :
    sample_state_off.control &&& COPRO_CTRL_MMU_EN = 0 ∧
      memory_translate sample_state_off zero_bus AS_PROGRAM 0xC0000003
        = TlbOutcome.ok 0xC0000003 ∧
      arm7_cpu_write32 sample_state_off zero_bus 0xC0000003 5
        = MemWriteResult.bus 0xC0000000 5 := by
  have h := claim_C6_mmu_off_identity sample_state_off zero_bus AS_PROGRAM
    0xC0000003 5 (by decide)
  refine ⟨by decide, h.1, ?_⟩
  have hw := h.2.1
  rw [hw]
  rfl

/-- C2: for every virtual address whose first-level descriptor has low two
bits 0 (unmapped), arm7_tlb_translate sets the data fault status register to
5 (section translation fault), sets the fault address register to the
looked-up (FCSE-remapped) address, raises the pending data-abort flag and
the aggregate pending-interrupt flag, and returns failure without producing
a physical address. -/
theorem claim_C2_unmapped_translation_fault (s : CoreState) (bus : Bus)
    (addr flags : Nat)
    (h : first_level_descriptor s bus (fcse_remap s.pid_offset addr) &&& 3
      = COPRO_TLB_UNMAPPED) :
    arm7_tlb_translate s bus addr flags =
      TlbOutcome.fail { s with
        faultStatusD := 5
        faultAddress := fcse_remap s.pid_offset addr
        pendingAbtD := true
        pending_interrupt := true } := by
  simp only [arm7_tlb_translate, arm7_tlb_translate_core]
  rw [h]
  simp [COPRO_TLB_UNMAPPED, COPRO_TLB_SECTION_TABLE]

theorem claim_C2_witness :
    first_level_descriptor sample_state zero_bus
        (fcse_remap sample_state.pid_offset 0) &&& 3 = COPRO_TLB_UNMAPPED ∧
      arm7_tlb_translate sample_state zero_bus 0 0
        = TlbOutcome.fail sample_fail := by
  have h0 : first_level_descriptor sample_state zero_bus
      (fcse_remap sample_state.pid_offset 0) &&& 3 = COPRO_TLB_UNMAPPED := by
    decide
  refine ⟨h0, ?_⟩
  have h := claim_C2_unmapped_translation_fault sample_state zero_bus 0 0 h0
  rw [h]
  rfl

/-- C7: every translation that reaches a coarse or fine second-level table
whose domain's two-bit DACR field is neither Client (1) nor Manager (3)
hard-stops the emulation (the fatalerror path), in both arm7_tlb_translate
and arm7_tlb_translate_check; in particular no physical address is silently
produced. -/
theorem claim_C7_domain_fault_fatal (s : CoreState) (bus : Bus)
    (addr flags : Nat)
    (hty : first_level_descriptor s bus (fcse_remap s.pid_offset addr) &&& 3
        = COPRO_TLB_COARSE_TABLE
      ∨ first_level_descriptor s bus (fcse_remap s.pid_offset addr) &&& 3
        = COPRO_TLB_FINE_TABLE)
    (hp1 : (s.domainAccessControl >>>
        ((first_level_descriptor s bus (fcse_remap s.pid_offset addr) >>> 4)
          &&& 0x1e)) &&& 3 ≠ 1)
    (hp3 : (s.domainAccessControl >>>
        ((first_level_descriptor s bus (fcse_remap s.pid_offset addr) >>> 4)
          &&& 0x1e)) &&& 3 ≠ 3) :
    arm7_tlb_translate s bus addr flags
      = TlbOutcome.fatal (fcse_remap s.pid_offset addr)
          ((first_level_descriptor s bus (fcse_remap s.pid_offset addr) >>> 5)
            &&& 0xF) ∧
    arm7_tlb_translate_check s bus addr
      = TlbCheckOutcome.fatal (fcse_remap s.pid_offset addr)
          ((first_level_descriptor s bus (fcse_remap s.pid_offset addr) >>> 5)
            &&& 0xF) := by
  constructor
  · simp only [arm7_tlb_translate, arm7_tlb_translate_core]
    rcases hty with h | h <;> rw [h] <;>
      simp [COPRO_TLB_SECTION_TABLE, COPRO_TLB_UNMAPPED, COPRO_TLB_COARSE_TABLE,
        COPRO_TLB_FINE_TABLE, hp1, hp3]
  · simp only [arm7_tlb_translate_check, arm7_tlb_translate_check_core]
    rcases hty with h | h <;> rw [h] <;>
      simp [COPRO_TLB_SECTION_TABLE, COPRO_TLB_UNMAPPED, COPRO_TLB_COARSE_TABLE,
        COPRO_TLB_FINE_TABLE, hp1, hp3]

/-- A bus that returns one everywhere: every first-level descriptor is a
coarse-table descriptor with domain 0. -/
def one_bus : Bus :=
  { read8 := fun _ => 1, read16 := fun _ => 1, read32 := fun _ => 1 }

theorem claim_C7_witness :
    first_level_descriptor sample_state one_bus
        (fcse_remap sample_state.pid_offset 0) &&& 3 = COPRO_TLB_COARSE_TABLE ∧
      arm7_tlb_translate sample_state one_bus 0 0 = TlbOutcome.fatal 0 0 := by
  have h0 : first_level_descriptor sample_state one_bus
      (fcse_remap sample_state.pid_offset 0) &&& 3 = COPRO_TLB_COARSE_TABLE := by
    decide
  have h := claim_C7_domain_fault_fatal sample_state one_bus 0 0 (Or.inl h0)
    (by decide) (by decide)
  refine ⟨h0, ?_⟩
  rw [h.1]
  rfl

/-- C9: the aggregate pending-interrupt flag equals the disjunction of the
six individual pending flags after every mutation of a pending flag:
execute_set_input (any line, assert or deassert), the spec-modelled
update_irq_state and exception-service bookkeeping, and every failing run of
the TLB walker. -/
theorem claim_C9_pending_aggregate (s : CoreState) (bus : Bus)
    (line : IrqLine) (st : Nat) (e : ExcKind) (a f : Nat) (s' : CoreState)
    (hfail : arm7_tlb_translate s bus a f = TlbOutcome.fail s') :
    pending_invariant (execute_set_input s line st) ∧
    pending_invariant (update_irq_state s) ∧
    pending_invariant (service_pending_clear s e) ∧
    pending_invariant s' := by
  refine ⟨?_, ?_, ?_, ?_⟩
  · cases line <;> simp [execute_set_input, update_irq_state, pending_invariant]
  · simp [update_irq_state, pending_invariant]
  · cases e <;> simp [service_pending_clear, update_irq_state, pending_invariant]
  · have hfr := arm7_tlb_translate_fail_frame s bus a f s' hfail
    rw [hfr]
    simp [pending_invariant]

theorem claim_C9_witness :
    arm7_tlb_translate sample_state zero_bus 0 0 = TlbOutcome.fail sample_fail ∧
      pending_invariant (execute_set_input sample_state IrqLine.irq 1) ∧
      pending_invariant sample_fail := by
  have h := claim_C9_pending_aggregate sample_state zero_bus IrqLine.irq 1
    ExcKind.irq 0 0 sample_fail (by rfl)
  exact ⟨by rfl, h.1, h.2.2.2⟩

/-- C10: with the MMU enabled, when data-side translation of an address
fails, every CPU read accessor returns 0 without touching the bus, every CPU
write accessor performs no bus access, and the resulting state differs from
the initial one only in the data fault status register, the fault address
register and the raised pending-abort flags. -/
theorem claim_C10_fault_no_bus (s : CoreState) (bus : Bus) (a d : Nat)
    (sr sw : CoreState)
    (hmmu : s.control &&& COPRO_CTRL_MMU_EN ≠ 0)
    (hr : arm7_tlb_translate s bus a (ARM7_TLB_ABORT_D ||| ARM7_TLB_READ)
      = TlbOutcome.fail sr)
    (hw : arm7_tlb_translate s bus a (ARM7_TLB_ABORT_D ||| ARM7_TLB_WRITE)
      = TlbOutcome.fail sw) :
    arm7_cpu_read32 s bus a = MemReadResult.ok sr 0 Option.none ∧
    arm7_cpu_read16 s bus a = MemReadResult.ok sr 0 Option.none ∧
    arm7_cpu_read8 s bus a = MemReadResult.ok sr 0 Option.none ∧
    arm7_cpu_write32 s bus a d = MemWriteResult.aborted sw ∧
    arm7_cpu_write16 s bus a d = MemWriteResult.aborted sw ∧
    arm7_cpu_write8 s bus a d = MemWriteResult.aborted sw ∧
    sr = { s with
           faultStatusD := sr.faultStatusD
           faultAddress := sr.faultAddress
           pendingAbtD := true
           pending_interrupt := true } ∧
    sw = { s with
           faultStatusD := sw.faultStatusD
           faultAddress := sw.faultAddress
           pendingAbtD := true
           pending_interrupt := true } := by
  refine ⟨?_, ?_, ?_, ?_, ?_, ?_,
    arm7_tlb_translate_fail_frame s bus a _ sr hr,
    arm7_tlb_translate_fail_frame s bus a _ sw hw⟩
  · simp only [arm7_cpu_read32]
    rw [if_pos hmmu, hr]
  · simp only [arm7_cpu_read16]
    rw [if_pos hmmu, hr]
  · simp only [arm7_cpu_read8]
    rw [if_pos hmmu, hr]
  · simp only [arm7_cpu_write32]
    rw [if_pos hmmu, hw]
  · simp only [arm7_cpu_write16]
    rw [if_pos hmmu, hw]
  · simp only [arm7_cpu_write8]
    rw [if_pos hmmu, hw]

theorem claim_C10_witness :
    sample_state.control &&& COPRO_CTRL_MMU_EN ≠ 0 ∧
      arm7_cpu_read32 sample_state zero_bus 0
        = MemReadResult.ok sample_fail 0 Option.none ∧
      arm7_cpu_write32 sample_state zero_bus 0 5
        = MemWriteResult.aborted sample_fail := by
  have h := claim_C10_fault_no_bus sample_state zero_bus 0 5 sample_fail
    sample_fail (by decide) (by rfl) (by rfl)
  exact ⟨by decide, h.1, h.2.2.2.1⟩

/-- C5: the word-read data path for any address a returns the memory word at
a AND NOT 3 rotated right by 8 * (a AND 3) bits; when a is word-aligned the
rotation is zero and the word is returned unchanged.  With the MMU disabled,
arm7_cpu_read32 runs this data path on a itself; with the MMU enabled and a
successful translation, it runs it on the translated address (which the
walker builds with the low bits of a preserved). -/
theorem claim_C5_unaligned_load_rotation (s : CoreState) (bus : Bus) (a : Nat)
    (ha : a < 4294967296) :
    arm7_cpu_read32_access s bus a
      = MemReadResult.ok s
          (ror32 (read_dword32 bus (a &&& 0xFFFFFFFC)) (8 * (a &&& 3)))
          (some (if a &&& 3 = 0 then a else a &&& 0xFFFFFFFC)) ∧
    (a &&& 3 = 0 →
      arm7_cpu_read32_access s bus a
        = MemReadResult.ok s (read_dword32 bus a) (some a)) ∧
    (s.control &&& COPRO_CTRL_MMU_EN = 0 →
      arm7_cpu_read32 s bus a = arm7_cpu_read32_access s bus a) ∧
    (∀ paddr, s.control &&& COPRO_CTRL_MMU_EN ≠ 0 →
      arm7_tlb_translate s bus a (ARM7_TLB_ABORT_D ||| ARM7_TLB_READ)
        = TlbOutcome.ok paddr →
      arm7_cpu_read32 s bus a = arm7_cpu_read32_access s bus paddr) := by
  have h3 : a &&& 3 = a % 4 := nat_and_three a
  have hmod : ∀ x : Nat, x % 4294967296 % 4294967296 = x % 4294967296 := by
    intro x
    omega
  refine ⟨?_, ?_, ?_, ?_⟩
  · simp only [arm7_cpu_read32_access]
    by_cases hz : a &&& 3 = 0
    · have hnnz : ¬(a &&& 3 ≠ 0) := by simp [hz]
      have haeq : a &&& 4294967292 = a := by
        rw [nat_and_word_mask a ha]
        rw [h3] at hz
        omega
      rw [if_neg hnnz, if_pos hz, hz, haeq]
      have hror : ror32 (read_dword32 bus a) (8 * 0)
          = read_dword32 bus a := by
        unfold ror32 read_dword32
        simp [hmod]
      rw [hror]
    · rw [if_pos hz, if_neg hz]
      have hval : read32_rotate (read_dword32 bus (a &&& 4294967292))
            (8 * (a &&& 3))
          = ror32 (read_dword32 bus (a &&& 4294967292)) (8 * (a &&& 3)) := by
        unfold read32_rotate ror32
        have hsh : (8 * (a &&& 3)) % 32 = 8 * (a &&& 3) := by
          rw [h3]
          omega
        rw [hsh, if_neg (by rw [h3] at hz ⊢; omega)]
      rw [hval]
  · intro h0
    simp only [arm7_cpu_read32_access]
    rw [if_neg (by simp [h0])]
  · intro hmmu
    simp only [arm7_cpu_read32]
    rw [if_neg (by simp [hmmu])]
  · intro paddr hm hok
    simp only [arm7_cpu_read32]
    rw [if_pos hm, hok]

/-- A bus with a recognizable word value, used by the C5 witness. -/
def c5_bus : Bus :=
  { read8 := fun _ => 0, read16 := fun _ => 0, read32 := fun _ => 0x11223344 }

theorem claim_C5_witness :
    (6 : Nat) < 4294967296 ∧
      sample_state_off.control &&& COPRO_CTRL_MMU_EN = 0 ∧
      arm7_cpu_read32 sample_state_off c5_bus 6
        = MemReadResult.ok sample_state_off
            (ror32 (read_dword32 c5_bus (6 &&& 0xFFFFFFFC)) (8 * (6 &&& 3)))
            (some (if (6 : Nat) &&& 3 = 0 then 6 else 6 &&& 0xFFFFFFFC)) := by
  have h := claim_C5_unaligned_load_rotation sample_state_off c5_bus 6
    (by norm_num)
  refine ⟨by norm_num, by decide, ?_⟩
  rw [h.2.2.1 (by decide), h.1]

/-- The core state after the guest writes 0x100 (System bit set) to the CP15
control register, starting from the device-start state. -/
def c1_after : CoreState := arm7_rt_w_callback sample_state_off 1 0 0 0x100

/-- C1: evaluation of the control-register write path at the failing input.
A CP15 write of 0x100 (System bit) via arm7_rt_w_callback updates the
control word but leaves the fault decision table as populated at device
start (System = 0, ROM = 0): at key (write=0, access_control=1 Client, ap=0,
mode=3 SVC) the table still answers FAULT_PERMISSION although
decode_fault(3,0,1,System=1,ROM=0,write=0) — which the claim requires after
the write — is FAULT_NONE; running update_fault_table (which the write path
never calls, its only call site being device_start) would repair the entry. -/
theorem claim_C1_fault_table_stale :
    c1_after.control = 0x100 ∧
    c1_after.control &&& COPRO_CTRL_SYSTEM ≠ 0 ∧
    c1_after.fault_table (fault_table_key 0 1 0 3) = Fault.fpermission ∧
    decode_fault 3 0 1 1 0 0 = Fault.fnone ∧
    fault_table_of_control c1_after.control (fault_table_key 0 1 0 3)
      = Fault.fnone ∧
    c1_after.fault_table (fault_table_key 0 1 0 3)
      ≠ fault_table_of_control c1_after.control (fault_table_key 0 1 0 3) ∧
    (update_fault_table c1_after).fault_table (fault_table_key 0 1 0 3)
      = Fault.fnone := by
  decide

/-- The concrete loop state used to evaluate the condition-false path: PC =
0x1000, CPSR = 0x10 (all flags clear, user mode), cycle budget 10. -/
def c3_state : LoopState :=
  { r := fun i => if i = 15 then 0x1000 else if i = 16 then 0x10 else 0
    icount := 10
    pendingIrq := false
    pendingFiq := false
    pendingAbtD := false
    pendingAbtP := false
    pendingUnd := false
    pendingSwi := false
    pending_interrupt := false
    mem := fun _ => 0 }

/-- C3: evaluation of the condition-false path at the failing input.  With Z
clear, instruction 0x03A00000 (MOVEQ R0,#0) takes the UNEXECUTED branch: R15
advances by exactly 4 and no register besides R15, no pending flag and no
memory cell changes — but the cycle counter is increased by 2 (the budget
grows) instead of being decremented by the one cycle the claim and the
in-source comment state. -/
theorem claim_C3_unexecuted_cycles :
    arm_cond_prologue 4 c3_state 0x03A00000
      = some { c3_state with
               r := fun i => if i = 15 then 0x1004 else c3_state.r i
               icount := 12 } ∧
    c3_state.r 15 = 0x1000 ∧
    c3_state.icount = 10 ∧
    (12 : Int) = c3_state.icount + 2 ∧
    (12 : Int) ≠ c3_state.icount - 1 := by
  refine ⟨rfl, rfl, rfl, by decide, by decide⟩

/-- The power-on ARM946 state (constructor, arm7.cpp lines 160-169). -/
def sample946 : Arm946State :=
  { cp15_control := 0
    cp15_itcm_base := 0xffffffff
    cp15_dtcm_base := 0xffffffff
    cp15_itcm_size := 0
    cp15_dtcm_size := 0
    cp15_itcm_end := 0
    cp15_dtcm_end := 0
    cp15_itcm_reg := 0
    cp15_dtcm_reg := 0
    ITCM := fun _ => 0
    DTCM := fun _ => 0 }

/-- C8: after every TCM refresh, if the enable bit (control bit 16 for DTCM,
bit 18 for ITCM) is set the window size is 512 << ((reg AND 0x3F) >> 1) and
end = base + size (32-bit arithmetic); if it is clear the base is the
all-ones sentinel and no address can fall inside the window, so every access
goes to the general bus; a 32-bit write whose word-masked address falls in a
window stores into the matching TCM backing array without touching the bus,
a write outside both windows goes to the bus, and an in-window 32-bit read
is satisfied without a bus access. -/
theorem claim_C8_tcm_windows (s : Arm946State) (bus : Bus) (a d : Nat) :
    ((s.cp15_control &&& (1 <<< 16) ≠ 0 →
        (RefreshDTCM s).cp15_dtcm_size
          = (512 <<< ((s.cp15_dtcm_reg &&& 0x3f) >>> 1)) % 4294967296 ∧
        (RefreshDTCM s).cp15_dtcm_end
          = ((RefreshDTCM s).cp15_dtcm_base + (RefreshDTCM s).cp15_dtcm_size)
              % 4294967296) ∧
      (s.cp15_control &&& (1 <<< 16) = 0 →
        (RefreshDTCM s).cp15_dtcm_base = 0xFFFFFFFF ∧
        ∀ x, ¬((RefreshDTCM s).cp15_dtcm_base ≤ x ∧
               x ≤ (RefreshDTCM s).cp15_dtcm_end))) ∧
    ((s.cp15_control &&& (1 <<< 18) ≠ 0 →
        (RefreshITCM s).cp15_itcm_size
          = (512 <<< ((s.cp15_itcm_reg &&& 0x3f) >>> 1)) % 4294967296 ∧
        (RefreshITCM s).cp15_itcm_end
          = ((RefreshITCM s).cp15_itcm_base + (RefreshITCM s).cp15_itcm_size)
              % 4294967296) ∧
      (s.cp15_control &&& (1 <<< 18) = 0 →
        (RefreshITCM s).cp15_itcm_base = 0xFFFFFFFF ∧
        ∀ x, ¬((RefreshITCM s).cp15_itcm_base ≤ x ∧
               x ≤ (RefreshITCM s).cp15_itcm_end))) ∧
    (s.cp15_itcm_base ≤ a &&& 0xFFFFFFFC ∧ a &&& 0xFFFFFFFC ≤ s.cp15_itcm_end →
      arm946es_cpu_write32 s a d
        = TcmWriteEffect.tcm { s with
            ITCM := fun i =>
              if i = ((a &&& 0xFFFFFFFC) &&& 0x7fff) then d else s.ITCM i }) ∧
    (¬(s.cp15_itcm_base ≤ a &&& 0xFFFFFFFC ∧ a &&& 0xFFFFFFFC ≤ s.cp15_itcm_end) →
      s.cp15_dtcm_base ≤ a &&& 0xFFFFFFFC ∧ a &&& 0xFFFFFFFC ≤ s.cp15_dtcm_end →
      arm946es_cpu_write32 s a d
        = TcmWriteEffect.tcm { s with
            DTCM := fun i =>
              if i = ((a &&& 0xFFFFFFFC) &&& 0x3fff) then d else s.DTCM i }) ∧
    (¬(s.cp15_itcm_base ≤ a &&& 0xFFFFFFFC ∧ a &&& 0xFFFFFFFC ≤ s.cp15_itcm_end) →
      ¬(s.cp15_dtcm_base ≤ a &&& 0xFFFFFFFC ∧ a &&& 0xFFFFFFFC ≤ s.cp15_dtcm_end) →
      arm946es_cpu_write32 s a d = TcmWriteEffect.bus (a &&& 0xFFFFFFFC) d) ∧
    (s.cp15_itcm_base ≤ a ∧ a ≤ s.cp15_itcm_end →
      (arm946es_cpu_read32 s bus a).2 = Option.none) ∧
    (¬(s.cp15_itcm_base ≤ a ∧ a ≤ s.cp15_itcm_end) →
      s.cp15_dtcm_base ≤ a ∧ a ≤ s.cp15_dtcm_end →
      (arm946es_cpu_read32 s bus a).2 = Option.none) := by
  refine ⟨⟨?_, ?_⟩, ⟨?_, ?_⟩, ?_, ?_, ?_, ?_, ?_⟩
  · intro h
    have h' : s.cp15_control &&& 65536 ≠ 0 := by simpa using h
    constructor <;> simp [RefreshDTCM, h']
  · intro h
    have h' : s.cp15_control &&& 65536 = 0 := by simpa using h
    refine ⟨by simp [RefreshDTCM, h'], ?_⟩
    intro x
    simp [RefreshDTCM, h']
    omega
  · intro h
    have h' : s.cp15_control &&& 262144 ≠ 0 := by simpa using h
    constructor <;> simp [RefreshITCM, h']
  · intro h
    have h' : s.cp15_control &&& 262144 = 0 := by simpa using h
    refine ⟨by simp [RefreshITCM, h'], ?_⟩
    intro x
    simp [RefreshITCM, h']
    omega
  · intro hi
    simp only [arm946es_cpu_write32]
    rw [if_pos hi]
  · intro hni hd
    simp only [arm946es_cpu_write32]
    rw [if_neg hni, if_pos hd]
  · intro hni hnd
    simp only [arm946es_cpu_write32]
    rw [if_neg hni, if_neg hnd]
  · intro hi
    simp only [arm946es_cpu_read32]
    rw [if_pos hi]
    split <;> rfl
  · intro hni hd
    simp only [arm946es_cpu_read32]
    rw [if_neg hni, if_pos hd]
    split <;> rfl

/-- sample946 with both TCM enable bits set. -/
def s946on : Arm946State := { sample946 with cp15_control := 0x50000 }

/-- sample946 with an ITCM window covering addresses 0 to 0x8000. -/
def s946win : Arm946State :=
  { sample946 with cp15_itcm_base := 0, cp15_itcm_end := 0x8000 }

theorem claim_C8_witness :
    ((RefreshDTCM s946on).cp15_dtcm_size
      = (512 <<< ((s946on.cp15_dtcm_reg &&& 0x3f) >>> 1)) % 4294967296) ∧
    ((RefreshITCM sample946).cp15_itcm_base = 0xFFFFFFFF) ∧
    (arm946es_cpu_write32 s946win 4 7
      = TcmWriteEffect.tcm { s946win with
          ITCM := fun i =>
            if i = ((4 &&& 0xFFFFFFFC) &&& 0x7fff) then 7
            else s946win.ITCM i }) := by
  refine ⟨((claim_C8_tcm_windows s946on zero_bus 4 7).1.1 (by decide)).1,
    ((claim_C8_tcm_windows sample946 zero_bus 4 7).2.1.2 (by decide)).1,
    (claim_C8_tcm_windows s946win zero_bus 4 7).2.2.1 (by decide)⟩

end Arm7
